import Mathlib

/-!
Verification of the FlashcardApp spaced-repetition core.

Embedding conventions:
* JavaScript numbers are modelled as exact rationals (`ℚ`); integer-valued
  quantities (repetition counts, day intervals) as `ℕ`/`ℤ`.
* `Math.round x` is round-half-up, modelled as `⌊x + 1/2⌋` (`jsRound`);
  `Math.ceil` as `⌈x⌉`.
* Timestamps (`Date` values and their ISO-8601 serializations, which compare
  in the same order) are modelled as integer milliseconds since the epoch;
  a nullable timestamp column is `Option Timestamp` with `none` for SQL NULL.
* The SQLite queries of `useDatabase.ts` are modelled extensionally: a table
  of cards is a `List Card`, a `WHERE` clause is a `filter`, an aggregate is
  a `countP`/`length`, and `ORDER BY` is a sort by the lexicographic sort key
  (in SQLite, ascending `NULL`s sort first).
-/

namespace Flashcards

/-- JavaScript `Math.round`: round half away from zero; all values this code
rounds are non-negative, where that is exactly `⌊x + 1/2⌋`. -/
def jsRound (x : ℚ) : ℤ := ⌊x + 1/2⌋

/-- JavaScript `Math.ceil`. -/
def jsCeil (x : ℚ) : ℤ := ⌈x⌉

/-- `Math.round(x * 100) / 100`: round to 2 decimal places
(`useSpacedRepetition` part of `part_000`, line 191). -/
def round2 (x : ℚ) : ℚ := (jsRound (x * 100) : ℚ) / 100

/-- Milliseconds per day: `24 * 60 * 60 * 1000`. -/
def msPerDay : ℤ := 24 * 60 * 60 * 1000

/-- Timestamps in integer milliseconds since the epoch. -/
abbrev Timestamp := ℤ

/-- The `Card` record of `useDatabase.ts` (SM-2 schema): identity and content
fields plus the seven scheduling fields. -/
structure Card where
  id : ℕ
  deck_id : ℕ
  front : String
  back : String
  repetitions : ℕ
  easiness_factor : ℚ
  interval : ℤ
  next_review : Option Timestamp
  last_reviewed : Option Timestamp
  review_count : ℕ
  created_at : Timestamp
deriving DecidableEq

/-- The easiness-factor adjustment of `SM2SpacedRepetition.processReview`
(part_000 lines 172-173): `qualityFactor = 5 - quality`;
`adjustment = 0.1 - qualityFactor * (0.08 + qualityFactor * 0.02)`. -/
def efAdjustment (quality : ℕ) : ℚ :=
  let qualityFactor : ℚ := 5 - (quality : ℚ)
  0.1 - qualityFactor * (0.08 + qualityFactor * 0.02)

/-- The easiness-factor clamp of `processReview` (part_000 lines 177-183):
raise to 1.3 if below, then cap at 3.0. -/
def clampEF (ef : ℚ) : ℚ :=
  let ef1 := if ef < 1.3 then 1.3 else ef
  if ef1 > 3.0 then 3.0 else ef1

/-- `SM2SpacedRepetition.processReview` (part_000 lines 146-197).
The first component of `p` is the updated `repetitions`, the second the
updated `interval`; both are computed before the easiness update, so the
`quality ≥ 3`, `repetitions ≥ 3` branch multiplies the stored interval by
the easiness factor as it was before this review. -/
def processReview (card : Card) (quality : ℕ) (now : Timestamp) : Card :=
  let p : ℕ × ℤ :=
    if 3 ≤ quality then
      let repetitions := card.repetitions + 1
      if repetitions = 1 then (repetitions, 1)
      else if repetitions = 2 then (repetitions, 6)
      else (repetitions, jsRound ((card.interval : ℚ) * card.easiness_factor))
    else
      (0, 1)
  { card with
      repetitions := p.1
      easiness_factor := round2 (clampEF (card.easiness_factor + efAdjustment quality))
      interval := p.2
      next_review := some (now + p.2 * msPerDay)
      last_reviewed := some now
      review_count := card.review_count + 1 }

/-- `SM2SpacedRepetition.getNewCards` predicate (part_000 line 233):
`repetitions === 0 && !last_reviewed`. -/
def isNew (card : Card) : Bool :=
  decide (card.repetitions = 0) && card.last_reviewed.isNone

/-- Claim C1: for a card satisfying the Card invariants and a grade ≥ 3 on the
6-point scale, `processReview` increments `repetitions` and selects the next
interval by the post-increment repetition count: 1 day if it became 1, 6 days
if it became 2, and otherwise `round(previousInterval * easinessFactor)` using
the interval and the easiness factor stored on the card before the update. -/
theorem C1_interval_selection (card : Card) (quality : ℕ) (now : Timestamp)
    (hq3 : 3 ≤ quality) (_hq5 : quality ≤ 5)
    (_hef : 1.3 ≤ card.easiness_factor ∧ card.easiness_factor ≤ 3.0)
    (_hint : 1 ≤ card.interval) :
    (processReview card quality now).repetitions = card.repetitions + 1 ∧
    (processReview card quality now).interval =
      (if card.repetitions + 1 = 1 then 1
       else if card.repetitions + 1 = 2 then 6
       else jsRound ((card.interval : ℚ) * card.easiness_factor)) := by
  simp only [processReview, if_pos hq3]
  split_ifs <;> simp

/-- Witness for C1 at concrete scenario 3 of the spec: a card with
`repetitions = 2`, `easinessFactor = 2.6`, `intervalDays = 6`, graded 5. -/
theorem C1_interval_selection_witness :
    (3 ≤ 5 ∧ 5 ≤ 5 ∧
      (1.3 ≤ (2.6 : ℚ) ∧ (2.6 : ℚ) ≤ 3.0) ∧ (1 : ℤ) ≤ 6) ∧
    ((processReview ⟨1, 1, "f", "b", 2, 2.6, 6, some 0, some 0, 2, 0⟩ 5 0).repetitions
        = 2 + 1 ∧
      (processReview ⟨1, 1, "f", "b", 2, 2.6, 6, some 0, some 0, 2, 0⟩ 5 0).interval =
        (if 2 + 1 = 1 then 1
         else if 2 + 1 = 2 then 6
         else jsRound (((6 : ℤ) : ℚ) * (2.6 : ℚ)))) :=
  ⟨⟨by norm_num, by norm_num, ⟨by norm_num, by norm_num⟩, by norm_num⟩,
    C1_interval_selection ⟨1, 1, "f", "b", 2, 2.6, 6, some 0, some 0, 2, 0⟩ 5 0
      (by norm_num) (by norm_num) ⟨by norm_num, by norm_num⟩ (by norm_num)⟩

/-- Claim C2: for any card and any grade < 3, `processReview` resets
`repetitions` to 0 and sets the interval to 1 day, regardless of prior state,
while the easiness factor is still updated by the usual
adjust-clamp-round pipeline rather than being reset. -/
theorem C2_failure_branch (card : Card) (quality : ℕ) (now : Timestamp)
    (hq : quality < 3) :
    (processReview card quality now).repetitions = 0 ∧
    (processReview card quality now).interval = 1 ∧
    (processReview card quality now).easiness_factor =
      round2 (clampEF (card.easiness_factor + efAdjustment quality)) := by
  have h3 : ¬ 3 ≤ quality := by omega
  simp [processReview, h3]

/-- Witness for C2 at concrete scenario 4 of the spec: a card with
`repetitions = 3`, `easinessFactor = 1.3`, `intervalDays = 16`, graded 0. -/
theorem C2_failure_branch_witness :
    0 < 3 ∧
    ((processReview ⟨1, 1, "f", "b", 3, 1.3, 16, some 0, some 0, 3, 0⟩ 0 0).repetitions
        = 0 ∧
      (processReview ⟨1, 1, "f", "b", 3, 1.3, 16, some 0, some 0, 3, 0⟩ 0 0).interval
        = 1 ∧
      (processReview ⟨1, 1, "f", "b", 3, 1.3, 16, some 0, some 0, 3, 0⟩ 0 0).easiness_factor
        = round2 (clampEF ((1.3 : ℚ) + efAdjustment 0))) :=
  ⟨by norm_num,
    C2_failure_branch ⟨1, 1, "f", "b", 3, 1.3, 16, some 0, some 0, 3, 0⟩ 0 0
      (by norm_num)⟩

lemma clampEF_mem (ef : ℚ) : 1.3 ≤ clampEF ef ∧ clampEF ef ≤ 3.0 := by
  simp only [clampEF]
  split_ifs <;> constructor <;> linarith

lemma round2_mem (x : ℚ) (h1 : 1.3 ≤ x) (h2 : x ≤ 3.0) :
    1.3 ≤ round2 x ∧ round2 x ≤ 3.0 := by
  have hlow : (130 : ℤ) ≤ ⌊x * 100 + 1/2⌋ := by
    apply Int.le_floor.mpr
    push_cast
    linarith
  have hfl : (⌊x * 100 + 1/2⌋ : ℚ) ≤ x * 100 + 1/2 := Int.floor_le _
  have hhiQ : (⌊x * 100 + 1/2⌋ : ℚ) < 301 := by linarith
  have hhi : ⌊x * 100 + 1/2⌋ ≤ 300 := by
    have : ⌊x * 100 + 1/2⌋ < 301 := by exact_mod_cast hhiQ
    omega
  have hlowQ : (130 : ℚ) ≤ (⌊x * 100 + 1/2⌋ : ℚ) := by exact_mod_cast hlow
  have hhiQ2 : (⌊x * 100 + 1/2⌋ : ℚ) ≤ 300 := by exact_mod_cast hhi
  unfold round2 jsRound
  constructor <;> linarith

/-- Claim C3: `processReview` always (in both branches) updates the easiness
factor by adding `0.1 - (5-q)*(0.08 + (5-q)*0.02)`, clamping the sum to
`[1.3, 3.0]`, then rounding to 2 decimal places; consequently the resulting
easiness factor always lies in `[1.3, 3.0]`. -/
theorem C3_easiness_update (card : Card) (quality : ℕ) (now : Timestamp) :
    (processReview card quality now).easiness_factor =
      round2 (clampEF (card.easiness_factor + efAdjustment quality)) ∧
    1.3 ≤ (processReview card quality now).easiness_factor ∧
    (processReview card quality now).easiness_factor ≤ 3.0 := by
  have hmem := clampEF_mem (card.easiness_factor + efAdjustment quality)
  have hr := round2_mem _ hmem.1 hmem.2
  refine ⟨by simp [processReview], ?_, ?_⟩ <;>
    · simp only [processReview]
      simp [hr.1, hr.2]

/-- Claim C10 (frame effect): `processReview` leaves the identity and content
fields of the card unchanged; only the seven scheduling fields are replaced. -/
theorem C10_frame (card : Card) (quality : ℕ) (now : Timestamp) :
    (processReview card quality now).id = card.id ∧
    (processReview card quality now).deck_id = card.deck_id ∧
    (processReview card quality now).front = card.front ∧
    (processReview card quality now).back = card.back ∧
    (processReview card quality now).created_at = card.created_at := by
  simp [processReview]

/-- The due test of `SM2SpacedRepetition.getStatistics` (part_000 line 260)
and of the `getCardsForReview` query: `next_review` NULL, or `≤ now`. -/
def isDue (now : Timestamp) (card : Card) : Bool :=
  match card.next_review with
  | none => true
  | some t => decide (t ≤ now)

/-- The statistics record returned by `getStatistics` / `getDeckStats`. -/
structure Stats where
  total : ℕ
  new : ℕ
  learning : ℕ
  mature : ℕ
  due : ℕ
deriving DecidableEq

/-- One step of the `reduce` in `SM2SpacedRepetition.getStatistics`
(part_000 lines 248-264): bump `total`; bump exactly one of `new`
(`repetitions === 0 && !last_reviewed`), `learning` (else, `repetitions < 2`)
or `mature` (else); independently bump `due`. -/
def statsStep (now : Timestamp) (acc : Stats) (card : Card) : Stats :=
  let acc1 : Stats := { acc with total := acc.total + 1 }
  let acc2 : Stats :=
    if card.repetitions = 0 ∧ card.last_reviewed = none then
      { acc1 with new := acc1.new + 1 }
    else if card.repetitions < 2 then
      { acc1 with learning := acc1.learning + 1 }
    else
      { acc1 with mature := acc1.mature + 1 }
  if isDue now card then { acc2 with due := acc2.due + 1 } else acc2

/-- `SM2SpacedRepetition.getStatistics` (part_000 lines 239-274): a `reduce`
over the cards starting from the all-zero accumulator. -/
def getStatistics (cards : List Card) (now : Timestamp) : Stats :=
  cards.foldl (statsStep now) ⟨0, 0, 0, 0, 0⟩

/-- `getDeckStats` of `useDatabase.ts` (lines 286-310), reading the SQL
aggregates extensionally over the cards of the deck: note that `due` requires
`next_review IS NOT NULL`, and `learning` requires `repetitions > 0`. -/
def getDeckStats (cards : List Card) (deckId : ℕ) (now : Timestamp) : Stats :=
  let cs := cards.filter fun c => decide (c.deck_id = deckId)
  { total := cs.length
    new := (cs.filter fun c => decide (c.repetitions = 0 ∧ c.last_reviewed = none)).length
    learning := (cs.filter fun c => decide (0 < c.repetitions ∧ c.repetitions < 2)).length
    mature := (cs.filter fun c => decide (2 ≤ c.repetitions)).length
    due := (cs.filter fun c =>
      match c.next_review with
      | none => false
      | some t => decide (t ≤ now)).length }

lemma foldl_statsStep (now : Timestamp) (cards : List Card) (acc : Stats) :
    cards.foldl (statsStep now) acc =
      { total := acc.total + cards.length
        new := acc.new +
          cards.countP fun c => decide (c.repetitions = 0 ∧ c.last_reviewed = none)
        learning := acc.learning +
          cards.countP fun c =>
            decide (¬(c.repetitions = 0 ∧ c.last_reviewed = none) ∧ c.repetitions < 2)
        mature := acc.mature +
          cards.countP fun c =>
            decide (¬(c.repetitions = 0 ∧ c.last_reviewed = none) ∧ 2 ≤ c.repetitions)
        due := acc.due + cards.countP (isDue now) } := by
  induction cards generalizing acc with
  | nil => simp
  | cons c cs ih =>
    rw [List.foldl_cons, ih]
    have h2' : (2 ≤ c.repetitions) ↔ ¬(c.repetitions < 2) := by omega
    by_cases h1 : c.repetitions = 0 ∧ c.last_reviewed = none <;>
      by_cases h2 : c.repetitions < 2 <;>
        by_cases h3 : isDue now c = true <;>
          simp [statsStep, List.countP_cons, h1, h2, h2', h3, ← not_and_or] <;> omega

lemma countP_partition (cards : List Card) :
    (cards.countP fun c => decide (c.repetitions = 0 ∧ c.last_reviewed = none)) +
      (cards.countP fun c =>
        decide (¬(c.repetitions = 0 ∧ c.last_reviewed = none) ∧ c.repetitions < 2)) +
      (cards.countP fun c =>
        decide (¬(c.repetitions = 0 ∧ c.last_reviewed = none) ∧ 2 ≤ c.repetitions)) =
      cards.length := by
  induction cards with
  | nil => simp
  | cons c cs ih =>
    have h2' : (2 ≤ c.repetitions) ↔ ¬(c.repetitions < 2) := by omega
    by_cases h1 : c.repetitions = 0 ∧ c.last_reviewed = none <;>
      by_cases h2 : c.repetitions < 2 <;>
        · simp only [List.countP_cons, List.length_cons] at ih ⊢
          simp [h1, h2, h2', ← not_and_or] at ih ⊢
          omega

/-- Counterexample to claim C4 as stated: on a collection consisting of one
card with `repetitions = 0` that has been reviewed (`lastReviewedAt` non-null,
as `processReview` produces after a failed recall), `getDeckStats` puts the
card in none of the three buckets, so `new + learning + mature ≠ total`. -/
theorem C4_sum_invariant_cex :
    (getDeckStats [⟨1, 1, "f", "b", 0, 2, 1, some 5, some 5, 1, 0⟩] 1 100).new +
        (getDeckStats [⟨1, 1, "f", "b", 0, 2, 1, some 5, some 5, 1, 0⟩] 1 100).learning +
        (getDeckStats [⟨1, 1, "f", "b", 0, 2, 1, some 5, some 5, 1, 0⟩] 1 100).mature ≠
      (getDeckStats [⟨1, 1, "f", "b", 0, 2, 1, some 5, some 5, 1, 0⟩] 1 100).total := by
  decide

/-- Claim C4 amended: the in-memory `getStatistics` does satisfy
`new + learning + mature = total` for every collection, but its `learning`
bucket is "not new and `repetitions < 2`" (which also catches reviewed cards
with `repetitions = 0`), not "`repetitions > 0` and `< 2`"; the SQL
`getDeckStats`, whose `learning` bucket is `repetitions > 0 AND < 2`, drops
reviewed `repetitions = 0` cards from all three buckets. -/
theorem C4_sum_invariant (cards : List Card) (now : Timestamp) :
    (getStatistics cards now).new + (getStatistics cards now).learning +
        (getStatistics cards now).mature = (getStatistics cards now).total ∧
    (getStatistics cards now).total = cards.length ∧
    (getStatistics cards now).new =
      (cards.countP fun c => decide (c.repetitions = 0 ∧ c.last_reviewed = none)) ∧
    (getStatistics cards now).learning =
      (cards.countP fun c =>
        decide (¬(c.repetitions = 0 ∧ c.last_reviewed = none) ∧ c.repetitions < 2)) ∧
    (getStatistics cards now).mature =
      (cards.countP fun c =>
        decide (¬(c.repetitions = 0 ∧ c.last_reviewed = none) ∧ 2 ≤ c.repetitions)) := by
  unfold getStatistics
  rw [foldl_statsStep]
  exact ⟨by simpa using countP_partition cards, by simp, by simp, by simp, by simp⟩

/-- Counterexample to claim C5 as stated: a card whose `nextReviewAt` is null
is not counted as due by `getDeckStats` (its SQL `due` aggregate requires
`next_review IS NOT NULL`), so the due count differs from the number of cards
with null-or-past `nextReviewAt`. -/
theorem C5_due_null_cex :
    (getDeckStats [⟨1, 1, "f", "b", 0, 2, 1, none, none, 0, 0⟩] 1 100).due ≠
      ([(⟨1, 1, "f", "b", 0, 2, 1, none, none, 0, 0⟩ : Card)].countP (isDue 100)) := by
  decide

/-- Claim C5 amended: the in-memory `getStatistics` counts as due exactly the
cards whose `nextReviewAt` is null or `≤ now` (so a null `nextReviewAt` is
due); the SQL `getDeckStats` instead requires `next_review IS NOT NULL`, so it
counts only the non-null past-or-present ones. -/
theorem C5_due_count (cards : List Card) (now : Timestamp) :
    (getStatistics cards now).due = cards.countP (isDue now) ∧
    (∀ c : Card, isDue now c = true ↔
      (c.next_review = none ∨ ∃ t, c.next_review = some t ∧ t ≤ now)) := by
  refine ⟨?_, ?_⟩
  · unfold getStatistics
    rw [foldl_statsStep]
    simp
  · intro c
    unfold isDue
    cases h : c.next_review with
    | none => simp
    | some t => simp

/-- First `ORDER BY` key of the `getCardsForReview` query
(`useDatabase.ts` line 248): `CASE WHEN repetitions = 0 THEN 0 ELSE 1 END`. -/
def repGroup (c : Card) : ℕ := if c.repetitions = 0 then 0 else 1

/-- `next_review ASC` as a `WithBot ℤ`: an SQL NULL (`⊥`) sorts before every
timestamp in ascending order. -/
def nrKey : Option Timestamp → WithBot ℤ
  | none => ⊥
  | some t => (t : WithBot ℤ)

/-- The full lexicographic `ORDER BY` key of `getCardsForReview`
(lines 247-250): the `repetitions = 0` group, then `next_review ASC`,
then `created_at ASC`. -/
def sortKey (c : Card) : Lex (ℕ × Lex (WithBot ℤ × ℤ)) :=
  toLex (repGroup c, toLex (nrKey c.next_review, c.created_at))

/-- The row order produced by the `ORDER BY` clause. -/
def reviewLE (a b : Card) : Prop := sortKey a ≤ sortKey b

instance : DecidableRel reviewLE :=
  fun a b => inferInstanceAs (Decidable (sortKey a ≤ sortKey b))

instance : IsTotal Card reviewLE :=
  ⟨fun a b => le_total (sortKey a) (sortKey b)⟩

instance : IsTrans Card reviewLE :=
  ⟨fun _ _ _ hab hbc => le_trans hab hbc⟩

/-- The `WHERE` clause of `getCardsForReview` (lines 245-246):
`deck_id = ? AND (next_review IS NULL OR next_review <= now)`. -/
def reviewWhere (deckId : ℕ) (now : Timestamp) (c : Card) : Bool :=
  decide (c.deck_id = deckId) && isDue now c

/-- `getCardsForReview` of `useDatabase.ts` (lines 238-256): the rows
matching the `WHERE` clause, sorted by the `ORDER BY` key. -/
def getCardsForReview (cards : List Card) (deckId : ℕ) (now : Timestamp) :
    List Card :=
  List.insertionSort reviewLE (cards.filter (reviewWhere deckId now))

/-- A due card with `repetitions = 0` that is not new (it has been reviewed,
as after a failed recall). -/
def cexCardA : Card := ⟨1, 1, "a", "a", 0, 2, 1, some 10, some 0, 1, 2⟩

/-- A due card with `repetitions = 1` and an earlier `next_review` than
`cexCardA`. -/
def cexCardB : Card := ⟨2, 1, "b", "b", 1, 2, 1, some 5, some 0, 1, 1⟩

/-- Counterexample to claim C6 as stated: the query's first sort group is
`repetitions = 0`, not new-ness. `cexCardA` and `cexCardB` are both due and
neither is new (both have non-null `lastReviewedAt`), so by the claim they
should be ordered by ascending `nextReviewAt` — `cexCardB` (5) before
`cexCardA` (10) — but the query returns `cexCardA` first because its
`repetitions` is 0. -/
theorem C6_ordering_cex :
    getCardsForReview [cexCardA, cexCardB] 1 100 = [cexCardA, cexCardB] ∧
    isNew cexCardA = false ∧ isNew cexCardB = false ∧
    cexCardA.next_review = some 10 ∧ cexCardB.next_review = some 5 ∧
    (5 : ℤ) < 10 := by
  decide

/-- Claim C6 amended: `getCardsForReview` returns exactly the cards of the
deck that are due (`nextReviewAt` null or `≤ now`), ordered by the key
(`repetitions = 0` first — regardless of `lastReviewedAt`, so not exactly
the new cards), then ascending `nextReviewAt` (nulls first), then ascending
`created_at` as tie-break. -/
theorem C6_due_selection (cards : List Card) (deckId : ℕ) (now : Timestamp) :
    (∀ c : Card, c ∈ getCardsForReview cards deckId now ↔
      c ∈ cards ∧ c.deck_id = deckId ∧
        (c.next_review = none ∨ ∃ t, c.next_review = some t ∧ t ≤ now)) ∧
    (getCardsForReview cards deckId now).Perm
      (cards.filter (reviewWhere deckId now)) ∧
    List.Sorted reviewLE (getCardsForReview cards deckId now) := by
  refine ⟨?_, List.perm_insertionSort _ _, List.sorted_insertionSort _ _⟩
  intro c
  unfold getCardsForReview
  rw [List.Perm.mem_iff (List.perm_insertionSort _ _), List.mem_filter]
  unfold reviewWhere isDue
  cases h : c.next_review with
  | none => simp [h]
  | some t => simp [h]

/-- The 3-button input of `SM2SpacedRepetition.mapButtonToQuality`
(part_000 line 280): `'hard' | 'medium' | 'easy'`. -/
inductive Button where
  | hard
  | medium
  | easy
deriving DecidableEq

/-- `SM2SpacedRepetition.mapButtonToQuality` (part_000 lines 280-297):
a wrong answer maps to quality 2 whatever the button; a right answer maps
hard/medium/easy to 3/4/5. -/
def mapButtonToQuality (button : Button) (wasCorrect : Bool) : ℕ :=
  if !wasCorrect then 2
  else
    match button with
    | Button.hard => 3
    | Button.medium => 4
    | Button.easy => 5

/-- Claim C7: the 3-button adaptation layer maps an incorrect answer (any
button) to grade 2, and correct hard/medium/easy to 3/4/5; in particular an
incorrect answer yields a grade below 3 (the failure range of the
6-point scale). -/
theorem C7_button_mapping (b : Button) :
    mapButtonToQuality b false = 2 ∧
    mapButtonToQuality Button.hard true = 3 ∧
    mapButtonToQuality Button.medium true = 4 ∧
    mapButtonToQuality Button.easy true = 5 ∧
    mapButtonToQuality b false < 3 := by
  cases b <;> decide

/-- The older `Card` interface of `useDatabase.ts` (lines 432-441), used by
`calculateSpacedRepetition` in `useSpacedRepetition.ts`: a 1-5 `difficulty`
in place of the SM-2 scheduling fields. -/
structure LegacyCard where
  id : ℕ
  deck_id : ℕ
  front : String
  back : String
  difficulty : ℚ
  last_reviewed : Option Timestamp
  next_review : Option Timestamp
  review_count : ℕ
deriving DecidableEq

/-- The `ReviewResult` of `useSpacedRepetition.ts` (lines 3-7); the returned
`difficulty` is `Math.round`ed to an integer. -/
structure ReviewResult where
  difficulty : ℤ
  nextReview : Timestamp
  reviewCount : ℕ
deriving DecidableEq

/-- `getDaysSinceLastReview` of `useSpacedRepetition.ts` (lines 59-68):
`Math.ceil(|now - lastReview| / (1000*60*60*24))`, or null when the card was
never reviewed. -/
def getDaysSinceLastReview (card : LegacyCard) (now : Timestamp) : Option ℤ :=
  match card.last_reviewed with
  | none => none
  | some t => some (jsCeil (((|now - t| : ℤ) : ℚ) / (1000 * 60 * 60 * 24)))

/-- `calculateSpacedRepetition` of `useSpacedRepetition.ts` (lines 13-57).
`p` is the pair (updated `review_count`, interval). JavaScript
`getDaysSinceLastReview(card) || 1` turns both null and 0 into 1. The
calendar-day addition `nextReview.setDate(getDate() + interval)` is modelled
as adding `interval` whole days of milliseconds. -/
def calculateSpacedRepetition (card : LegacyCard) (quality : ℕ)
    (now : Timestamp) : ReviewResult :=
  let difficulty1 : ℚ :=
    max 1.3 (card.difficulty +
      (0.1 - (5 - (quality : ℚ)) * (0.08 + (5 - (quality : ℚ)) * 0.02)))
  let difficulty2 : ℚ := (jsRound (min 5 (max 1 difficulty1) * 10) : ℚ) / 10
  let p : ℕ × ℤ :=
    if quality < 3 then
      (1, 1)
    else
      let review_count := card.review_count + 1
      if review_count = 1 then (review_count, 1)
      else if review_count = 2 then (review_count, 6)
      else
        let lastInterval : ℤ :=
          match getDaysSinceLastReview card now with
          | none => 1
          | some d => if d = 0 then 1 else d
        (review_count, jsRound ((lastInterval : ℚ) * difficulty2))
  { difficulty := jsRound difficulty2
    nextReview := now + p.2 * msPerDay
    reviewCount := p.1 }

/-- A legacy card that has already been reviewed 5 times. -/
def cexLegacyCard : LegacyCard := ⟨1, 1, "f", "b", 3, some 0, some 0, 5⟩

/-- Counterexample to claim C8 as stated: `calculateSpacedRepetition` — one
of the two review processors cited by the claim — does reset the review
count. Grading `cexLegacyCard` (5 prior reviews) with quality 2 (< 3) yields
`reviewCount = 1`, not the prior count plus one, and strictly below the
prior count. -/
theorem C8_reviewCount_cex :
    (calculateSpacedRepetition cexLegacyCard 2 0).reviewCount ≠
      cexLegacyCard.review_count + 1 ∧
    (calculateSpacedRepetition cexLegacyCard 2 0).reviewCount <
      cexLegacyCard.review_count := by
  decide

/-- Claim C8 amended: the canonical scheduler `processReview` always sets
`review_count` to the prior count plus one, for every grade — including
failures — so along `processReview` the count is strictly increasing and
never reset; only the vestigial `calculateSpacedRepetition` variant resets
it to 1 on a grade below 3. -/
theorem C8_reviewCount_increment (card : Card) (quality : ℕ) (now : Timestamp) :
    (processReview card quality now).review_count = card.review_count + 1 := by
  simp [processReview]

/-- `SM2SpacedRepetition.formatInterval` (part_000 lines 310-323). -/
def formatInterval (days : ℚ) : String :=
  if days < 1 then toString (jsRound (days * 24)) ++ "h"
  else if days < 30 then toString (jsRound days) ++ "d"
  else if days < 365 then toString (jsRound (days / 30.44)) ++ "mo"
  else toString (jsRound (days / 365.25)) ++ "y"

/-- Claim C9: for a non-negative day count, `formatInterval` renders
hours (`round(d*24)` + "h") below 1 day, whole days below 30, months with
divisor 30.44 below 365, and years with divisor 365.25 from 365 on; in
particular `0.5 ↦ "12h"`, `3 ↦ "3d"`, `60 ↦ "2mo"`, `400 ↦ "1y"`. -/
theorem C9_formatInterval (d : ℚ) (_h0 : 0 ≤ d) :
    (d < 1 → formatInterval d = toString (jsRound (d * 24)) ++ "h") ∧
    (1 ≤ d → d < 30 → formatInterval d = toString (jsRound d) ++ "d") ∧
    (30 ≤ d → d < 365 → formatInterval d = toString (jsRound (d / 30.44)) ++ "mo") ∧
    (365 ≤ d → formatInterval d = toString (jsRound (d / 365.25)) ++ "y") ∧
    formatInterval 0.5 = "12h" ∧ formatInterval 3 = "3d" ∧
    formatInterval 60 = "2mo" ∧ formatInterval 400 = "1y" := by
  refine ⟨?_, ?_, ?_, ?_, ?_, ?_, ?_, ?_⟩
  · intro h
    rw [formatInterval, if_pos h]
  · intro h1 h2
    rw [formatInterval, if_neg (by linarith), if_pos h2]
  · intro h1 h2
    rw [formatInterval, if_neg (by linarith), if_neg (by linarith), if_pos h2]
  · intro h1
    rw [formatInterval, if_neg (by linarith), if_neg (by linarith),
      if_neg (by linarith)]
  · have hr : jsRound ((0.5 : ℚ) * 24) = 12 := by
      norm_num [jsRound, Rat.floor_def]
    rw [formatInterval, if_pos (by norm_num : (0.5 : ℚ) < 1), hr]
    rfl
  · have hr : jsRound (3 : ℚ) = 3 := by
      norm_num [jsRound, Rat.floor_def]
    rw [formatInterval, if_neg (by norm_num : ¬((3 : ℚ) < 1)),
      if_pos (by norm_num : (3 : ℚ) < 30), hr]
    rfl
  · have hr : jsRound ((60 : ℚ) / 30.44) = 2 := by
      norm_num [jsRound, Rat.floor_def]
    rw [formatInterval, if_neg (by norm_num : ¬((60 : ℚ) < 1)),
      if_neg (by norm_num : ¬((60 : ℚ) < 30)),
      if_pos (by norm_num : (60 : ℚ) < 365), hr]
    rfl
  · have hr : jsRound ((400 : ℚ) / 365.25) = 1 := by
      norm_num [jsRound, Rat.floor_def]
    rw [formatInterval, if_neg (by norm_num : ¬((400 : ℚ) < 1)),
      if_neg (by norm_num : ¬((400 : ℚ) < 30)),
      if_neg (by norm_num : ¬((400 : ℚ) < 365)), hr]
    rfl

/-- Witness for C9: the hour branch at half a day renders "12h". -/
theorem C9_formatInterval_witness :
    (0 : ℚ) ≤ 0.5 ∧ formatInterval 0.5 = toString (jsRound ((0.5 : ℚ) * 24)) ++ "h" :=
  ⟨by norm_num, (C9_formatInterval 0.5 (by norm_num)).1 (by norm_num)⟩

end Flashcards
